import Mathlib

namespace Subagents

/- Shallow embedding of src/subagents.py: a Streamlit chat session that
builds a `ClaudeAgentOptions` configuration with three subagent
definitions, sends user text to an external agent call, accumulates the
streamed response text, and records user/assistant turns in the session
transcript. -/

/-- A content segment of a message event: either it carries a `text`
attribute (the `hasattr(content_block, 'text')` test of
src/subagents.py:192) or it does not. -/
inductive ContentBlock where
  | textBlock (text : String)
  | otherBlock
deriving DecidableEq

/-- The `content` attribute of a message event: either a list of content
segments (src/subagents.py:190) or a single payload
(src/subagents.py:194), which itself may or may not bear text. -/
inductive MessageContent where
  | blocks (l : List ContentBlock)
  | single (c : ContentBlock)
deriving DecidableEq

/-- One message event yielded by `client.receive_response()`;
`content = none` models a message without a `content` attribute
(the `hasattr(message, 'content')` test of src/subagents.py:189). -/
structure MessageEvent where
  content : Option MessageContent
deriving DecidableEq

/-- The body of the inner loop of `process_message`
(src/subagents.py:191-193): a segment with a `text` attribute is appended
to the accumulator, any other segment is skipped. -/
def stepBlock (acc : String) (b : ContentBlock) : String :=
  match b with
  | .textBlock t => acc ++ t
  | .otherBlock => acc

/-- The body of the `async for message` loop of `process_message`
(src/subagents.py:187-195): a list-of-segments content is folded with
`stepBlock`; a single text-bearing payload is appended directly; anything
else leaves the accumulator unchanged. -/
def stepEvent (acc : String) (m : MessageEvent) : String :=
  match m.content with
  | none => acc
  | some (.blocks l) => l.foldl stepBlock acc
  | some (.single (.textBlock t)) => acc ++ t
  | some (.single .otherBlock) => acc

/-- Response assembly of `process_message` (src/subagents.py:179-197):
fold the event sequence over the accumulator starting from `""`.  The
construction of the per-request configuration (line 181) is modelled
separately by `configForRequest`. -/
def process_message (events : List MessageEvent) : String :=
  events.foldl stepEvent ""

/-- The text carried by a content segment, if any. -/
def blockTextOf : ContentBlock → Option String
  | .textBlock t => some t
  | .otherBlock => none

/-- The texts of the text-bearing segments of one event, in order. -/
def eventSegmentTexts (m : MessageEvent) : List String :=
  match m.content with
  | none => []
  | some (.blocks l) => l.filterMap blockTextOf
  | some (.single c) => (blockTextOf c).toList

/-- Concatenation of a list of strings, in order. -/
def concatTexts : List String → String
  | [] => ""
  | t :: ts => t ++ concatTexts ts

/-- Specification-side description of response assembly: the
concatenation, in event arrival order, of the text of every text-bearing
segment of every event. -/
def response_concat_spec (events : List MessageEvent) : String :=
  concatTexts ((events.map eventSegmentTexts).flatten)

/-- A subagent definition as passed to the `agents` map
(src/subagents.py:79-164): description, prompt, model identifier and
allowed tool names. -/
structure AgentDefinition where
  description : String
  prompt : String
  model : String
  tools : List String
deriving DecidableEq

/-- A tool-server descriptor of the `mcp_servers` map
(src/subagents.py:167-175): launch command and arguments. -/
structure McpServerConfig where
  command : String
  args : List String
deriving DecidableEq

/-- The agent configuration record built by `get_claude_options`
(src/subagents.py:39-176).  Maps are modelled as association lists in
insertion order. -/
structure ClaudeAgentOptions where
  model : String
  permission_mode : String
  setting_sources : List String
  allowed_tools : List String
  agents : List (String × AgentDefinition)
  mcp_servers : List (String × McpServerConfig)
deriving DecidableEq

/-- `get_claude_options` (src/subagents.py:37-176): builds the full
configuration for a given model identifier.  Every field other than
`model` is a literal constant in the source. -/
def get_claude_options (model : String) : ClaudeAgentOptions :=
  { model := model
    permission_mode := "acceptEdits"
    setting_sources := ["project"]
    allowed_tools := [
      "Read",
      "Write",
      "Edit",
      "MultiEdit",
      "Grep",
      "Glob",
      "Task",
      "TodoWrite",
      "WebSearch",
      "WebFetch",
      "mcp__Playwright__browser_close",
      "mcp__Playwright__browser_resize",
      "mcp__Playwright__browser_console_messages",
      "mcp__Playwright__browser_handle_dialog",
      "mcp__Playwright__browser_evaluate",
      "mcp__Playwright__browser_file_upload",
      "mcp__Playwright__browser_fill_form",
      "mcp__Playwright__browser_install",
      "mcp__Playwright__browser_press_key",
      "mcp__Playwright__browser_type",
      "mcp__Playwright__browser_navigate",
      "mcp__Playwright__browser_navigate_back",
      "mcp__Playwright__browser_network_requests",
      "mcp__Playwright__browser_take_screenshot",
      "mcp__Playwright__browser_snapshot",
      "mcp__Playwright__browser_click",
      "mcp__Playwright__browser_drag",
      "mcp__Playwright__browser_hover",
      "mcp__Playwright__browser_select_option",
      "mcp__Playwright__browser_tabs",
      "mcp__Playwright__browser_wait_for"]
    agents := [
      ("youtube-analyst",
        { description := "An expert at analyzing a user's Youtube channel performance. The analyst will produce a markdown report in the /docs directory."
          prompt := "You are an expert at analyzing YouTube data and helping the user understand their performance. You can use the Playwright browser tools to access the user's Youtube Studio. Generate a markdown report in the /docs directory."
          model := "sonnet"
          tools := [
            "Read",
            "Write",
            "Edit",
            "MultiEdit",
            "Grep",
            "Glob",
            "TodoWrite",
            "mcp__Playwright__browser_close",
            "mcp__Playwright__browser_resize",
            "mcp__Playwright__browser_console_messages",
            "mcp__Playwright__browser_handle_dialog",
            "mcp__Playwright__browser_evaluate",
            "mcp__Playwright__browser_file_upload",
            "mcp__Playwright__browser_fill_form",
            "mcp__Playwright__browser_install",
            "mcp__Playwright__browser_press_key",
            "mcp__Playwright__browser_type",
            "mcp__Playwright__browser_navigate",
            "mcp__Playwright__browser_navigate_back",
            "mcp__Playwright__browser_network_requests",
            "mcp__Playwright__browser_take_screenshot",
            "mcp__Playwright__browser_snapshot",
            "mcp__Playwright__browser_click",
            "mcp__Playwright__browser_drag",
            "mcp__Playwright__browser_hover",
            "mcp__Playwright__browser_select_option",
            "mcp__Playwright__browser_tabs",
            "mcp__Playwright__browser_wait_for"] }),
      ("researcher",
        { description := "An expert researcher and documentation writer. The agent will perform deep research of a topic and generate a report or documentation in the /docs directory."
          prompt := "You are an expert researcher and report/documentation writer. Use the WebSearch and WebFetch tools to perform research. You can research multiple subtopics/angles to get a holistic understanding of the topic. You can use filesystem tools to track findings and data in the /docs directory. For longer reports, you can break the work into multiple tasks or write sections at a time. But the final output should be a single markdown report. The final report **MUST** include a citations section with links to all sources used. Review the full report, identify any areas for improvement in readability, cohorerence, and relevancy, and make any necessary edits before declaring the task complete. Clean up any extraneous files and only leave the final report in the /docs directory when you are done. You are only permitted to use these specific tools: Read, Write, Edit, MultiEdit, Grep, Glob, TodoWrite, WebSearch, WebFetch. All other tools are prohibited."
          model := "sonnet"
          tools := [
            "Read",
            "Write",
            "Edit",
            "MultiEdit",
            "Grep",
            "Glob",
            "TodoWrite",
            "WebSearch",
            "WebFetch"] }),
      ("events_agent",
        { description := "You are gathering incoming AI events in bay area. Asking for the input of how many days you want to check, search for sources from https://luma.com/sf, Meetup, eventbrite, startupgrind, Y combinator, 500 startups, Andreessen Horowitz (a16z), Stanford Events, Berkeley Events, LinkedIn Events, Silicon Valley Forum, Galvanize, StrictlyVC, Bay Area Tech Events, cerebralvalley.ai/events , you must include RSVP URL."
          prompt := "You are searching for AI events in the next few days. Ask for how many days in advance. Gather the events, make sure to include short description, location and RSVP URL"
          model := "sonnet"
          tools := [
            "Read",
            "Write",
            "Edit",
            "MultiEdit",
            "Grep",
            "Glob",
            "TodoWrite",
            "mcp__Playwright__browser_close",
            "mcp__Playwright__browser_resize",
            "mcp__Playwright__browser_console_messages",
            "mcp__Playwright__browser_handle_dialog",
            "mcp__Playwright__browser_evaluate",
            "mcp__Playwright__browser_file_upload",
            "mcp__Playwright__browser_fill_form",
            "mcp__Playwright__browser_install",
            "mcp__Playwright__browser_press_key",
            "mcp__Playwright__browser_type",
            "mcp__Playwright__browser_navigate",
            "mcp__Playwright__browser_navigate_back",
            "mcp__Playwright__browser_network_requests",
            "mcp__Playwright__browser_take_screenshot",
            "mcp__Playwright__browser_snapshot",
            "mcp__Playwright__browser_click",
            "mcp__Playwright__browser_drag",
            "mcp__Playwright__browser_hover",
            "mcp__Playwright__browser_select_option",
            "mcp__Playwright__browser_tabs",
            "mcp__Playwright__browser_wait_for"] })]
    mcp_servers := [
      ("Playwright",
        { command := "npx"
          args := ["-y", "@playwright/mcp@latest"] })] }

/-- One transcript entry, as appended to `st.session_state.messages`
(src/subagents.py:245, 262, 266): a role/content dictionary. -/
structure Turn where
  role : String
  content : String
deriving DecidableEq

/-- The per-session state of the app: the transcript
(`st.session_state.messages`) and the currently selected model
(`st.session_state.model`).  The `client` slot of the source
(src/subagents.py:31-32) is initialized to `None` and never read, so it
is not modelled. -/
structure SessionState where
  messages : List Turn
  model : String
deriving DecidableEq

/-- The initial session state (src/subagents.py:29-34): empty transcript
and model `"sonnet"`. -/
def initialState : SessionState :=
  { messages := [], model := "sonnet" }

/-- Rejection of a submission: the walrus guard
`if prompt := st.chat_input(...)` (src/subagents.py:243) skips the whole
handler when the text is empty, so no turn is recorded. -/
inductive SubmitError where
  | invalidInput
deriving DecidableEq

/-- The chat input handler (src/subagents.py:243-266).  The outcome of
the external agent call `asyncio.run(process_message(...))` is a
parameter: either the list of message events received (success) or the
exception message raised (failure).  Empty input fails the walrus guard
and nothing is appended; otherwise the user turn is appended first
(line 245), then on success the assistant turn carries the assembled
response text (line 262) and on exception the assistant turn carries
`"Error: " ++ e` (lines 263-266); the exception is never re-raised. -/
def submit (user_text : String) (outcome : Except String (List MessageEvent))
    (st : SessionState) : Except SubmitError SessionState :=
  if user_text = "" then .error .invalidInput
  else
    let st1 := { st with messages := st.messages ++ [Turn.mk "user" user_text] }
    match outcome with
    | .ok events =>
        .ok { st1 with
          messages := st1.messages ++ [Turn.mk "assistant" (process_message events)] }
    | .error e =>
        .ok { st1 with
          messages := st1.messages ++ [Turn.mk "assistant" ("Error: " ++ e)] }

/-- The session state after a chat input event: on rejection the state is
simply left as it was (the handler body never ran). -/
def runSubmit (user_text : String) (outcome : Except String (List MessageEvent))
    (st : SessionState) : SessionState :=
  match submit user_text outcome st with
  | .ok st1 => st1
  | .error _ => st

/-- The options of the model selectbox (src/subagents.py:205-209). -/
def supportedModels : List String :=
  ["sonnet", "opus", "haiku"]

/-- Rejection of a model selection: the selectbox only offers the three
supported identifiers, so any other name cannot be selected. -/
inductive SelectModelError where
  | invalidModel
deriving DecidableEq

/-- The model selectbox handler (src/subagents.py:205-210): a name chosen
from the fixed option list is stored in `st.session_state.model`; any
other name is not selectable. -/
def select_model (name : String) (st : SessionState) :
    Except SelectModelError SessionState :=
  if name ∈ supportedModels then .ok { st with model := name }
  else .error .invalidModel

/-- The session state after a model-selection event: a rejected name
leaves the state as it was. -/
def runSelectModel (name : String) (st : SessionState) : SessionState :=
  match select_model name st with
  | .ok st1 => st1
  | .error _ => st

/-- The Clear Chat History button handler (src/subagents.py:224-226):
`st.session_state.messages = []`. -/
def clear (st : SessionState) : SessionState :=
  { st with messages := [] }

/-- The configuration passed to the external agent call for one request:
the handler calls `process_message(prompt, st.session_state.model)`
(src/subagents.py:256) and `process_message` builds the options fresh via
`get_claude_options(model)` (src/subagents.py:181). -/
def configForRequest (st : SessionState) : ClaudeAgentOptions :=
  get_claude_options st.model

/-- The subagent names advertised in the sidebar markdown
(src/subagents.py:215-220). -/
def sidebar_subagents : List String :=
  ["youtube-analyst", "researcher", "documentation-writer", "events_agent"]

/-- The model identifier the specification calls `balanced-tier`: the
middle-capability option `"sonnet"` of the selectbox. -/
def balanced_tier : String := "sonnet"

/-- A sequence of chat input events, each a (user text, call outcome)
pair with a successful outcome, applied in order. -/
def submitAll (reqs : List (String × List MessageEvent))
    (st : SessionState) : SessionState :=
  reqs.foldl (fun s r => runSubmit r.1 (.ok r.2) s) st

/-- Role-alternation check for a transcript: the flag says whether the
next expected role is `user`. -/
def rolesOk : Bool → List Turn → Bool
  | _, [] => true
  | expectUser, t :: ts =>
      (t.role == (if expectUser then "user" else "assistant")) && rolesOk (!expectUser) ts

/- Helper lemmas shared by the claim theorems. -/

theorem concatTexts_append (l₁ l₂ : List String) :
    concatTexts (l₁ ++ l₂) = concatTexts l₁ ++ concatTexts l₂ := by
  induction l₁ with
  | nil => simp [concatTexts]
  | cons t ts ih => simp [concatTexts, ih, String.append_assoc]

theorem foldl_stepBlock (l : List ContentBlock) (acc : String) :
    l.foldl stepBlock acc = acc ++ concatTexts (l.filterMap blockTextOf) := by
  induction l generalizing acc with
  | nil => simp [concatTexts]
  | cons b bs ih =>
    cases b with
    | textBlock t => simp [stepBlock, blockTextOf, ih, concatTexts, String.append_assoc]
    | otherBlock => simp [stepBlock, blockTextOf, ih, concatTexts]

theorem stepEvent_eq (acc : String) (m : MessageEvent) :
    stepEvent acc m = acc ++ concatTexts (eventSegmentTexts m) := by
  cases m with
  | mk c =>
    cases c with
    | none => simp [stepEvent, eventSegmentTexts, concatTexts]
    | some mc =>
      cases mc with
      | blocks l => simp [stepEvent, eventSegmentTexts, foldl_stepBlock]
      | single cb =>
        cases cb with
        | textBlock t => simp [stepEvent, eventSegmentTexts, blockTextOf, concatTexts]
        | otherBlock => simp [stepEvent, eventSegmentTexts, blockTextOf, concatTexts]

theorem foldl_stepEvent (events : List MessageEvent) (acc : String) :
    events.foldl stepEvent acc = acc ++ response_concat_spec events := by
  induction events generalizing acc with
  | nil => simp [response_concat_spec, concatTexts]
  | cons e es ih =>
    simp [response_concat_spec, List.foldl_cons, stepEvent_eq, ih,
      concatTexts_append, String.append_assoc]

theorem runSubmit_model (u : String) (out : Except String (List MessageEvent))
    (st : SessionState) : (runSubmit u out st).model = st.model := by
  by_cases h : u = "" <;> cases out <;> simp [runSubmit, submit, h]

theorem runSubmit_ok_messages (u : String) (evs : List MessageEvent) (st : SessionState)
    (h : u ≠ "") :
    runSubmit u (.ok evs) st =
      { st with messages :=
          st.messages ++ [Turn.mk "user" u, Turn.mk "assistant" (process_message evs)] } := by
  simp [runSubmit, submit, h]

theorem submitAll_messages (reqs : List (String × List MessageEvent)) (st : SessionState)
    (h : ∀ r ∈ reqs, r.1 ≠ "") :
    (submitAll reqs st).messages =
      st.messages ++
        (reqs.map fun r =>
          [Turn.mk "user" r.1, Turn.mk "assistant" (process_message r.2)]).flatten := by
  induction reqs generalizing st with
  | nil => simp [submitAll]
  | cons r rs ih =>
    have hr : r.1 ≠ "" := h r (by simp)
    have hrs : ∀ x ∈ rs, x.1 ≠ "" := fun x hx => h x (by simp [hx])
    have hstep := runSubmit_ok_messages r.1 r.2 st hr
    have hrec := ih (runSubmit r.1 (.ok r.2) st) hrs
    have hfold : submitAll (r :: rs) st = submitAll rs (runSubmit r.1 (.ok r.2) st) := rfl
    rw [hfold, hrec, hstep]
    simp

theorem flatten_pairs_length (reqs : List (String × List MessageEvent)) :
    ((reqs.map fun r =>
      [Turn.mk "user" r.1, Turn.mk "assistant" (process_message r.2)]).flatten).length =
      2 * reqs.length := by
  induction reqs with
  | nil => simp
  | cons r rs ih => simp [ih]; omega

theorem rolesOk_flatten_pairs (reqs : List (String × List MessageEvent)) :
    rolesOk true ((reqs.map fun r =>
      [Turn.mk "user" r.1, Turn.mk "assistant" (process_message r.2)]).flatten) = true := by
  induction reqs with
  | nil => rfl
  | cons r rs ih => simp [rolesOk, ih]

/- Claim theorems. -/

/-- C1: the assistant Turn text produced by response assembly equals the
concatenation, in event arrival order, of the text of every text-bearing
content segment of every event (list-of-segments events contribute each
segment that has text, single text-bearing payloads contribute their
text, segments without text contribute nothing); in particular, for a
response of two events carrying one text segment "A" and "B"
respectively, the text equals "AB". -/
theorem process_message_is_ordered_concat :
    (∀ events : List MessageEvent, process_message events = response_concat_spec events) ∧
    process_message
      [⟨some (.blocks [.textBlock "A"])⟩, ⟨some (.blocks [.textBlock "B"])⟩] = "AB" := by
  constructor
  · intro events
    simpa [process_message] using foldl_stepEvent events ""
  · decide

/-- C2: an exception raised by the external agent call is caught inside
`submit` and never re-raised: the call still returns an updated state, an
assistant Turn whose text is `"Error: "` followed by the exception
description is appended after the user Turn, and the resulting session
accepts any further non-empty `submit` call. -/
theorem submit_exception_recoverable (user_text e : String) (st : SessionState)
    (h : user_text ≠ "") :
    ∃ st1,
      submit user_text (.error e) st = .ok st1 ∧
      st1.messages = st.messages ++
        [Turn.mk "user" user_text, Turn.mk "assistant" ("Error: " ++ e)] ∧
      (∀ (u2 : String) (out2 : Except String (List MessageEvent)),
        u2 ≠ "" → ∃ st2, submit u2 out2 st1 = .ok st2) := by
  refine ⟨{ st with messages := st.messages ++
      [Turn.mk "user" user_text, Turn.mk "assistant" ("Error: " ++ e)] }, ?_, rfl, ?_⟩
  · simp [submit, h]
  · intro u2 out2 h2
    unfold submit
    rw [if_neg h2]
    cases out2 with
    | ok evs => exact ⟨_, rfl⟩
    | error e2 => exact ⟨_, rfl⟩

/-- Witness for C2 at the concrete input `"hi"` with exception message
`"boom"` from the initial state. -/
theorem submit_exception_recoverable_witness :
    ∃ st1,
      submit "hi" (.error "boom") initialState = .ok st1 ∧
      st1.messages = initialState.messages ++
        [Turn.mk "user" "hi", Turn.mk "assistant" ("Error: " ++ "boom")] ∧
      (∀ (u2 : String) (out2 : Except String (List MessageEvent)),
        u2 ≠ "" → ∃ st2, submit u2 out2 st1 = .ok st2) :=
  submit_exception_recoverable "hi" "boom" initialState (by decide)

/-- C3: starting from an empty Transcript, N successful submissions with
non-empty texts produce a Transcript that is exactly the arrival-ordered
sequence of one user Turn followed by one assistant Turn per request, of
length 2N, with roles strictly alternating starting with user. -/
theorem transcript_length_alternation (reqs : List (String × List MessageEvent))
    (m : String) (h : ∀ r ∈ reqs, r.1 ≠ "") :
    (submitAll reqs { messages := [], model := m }).messages =
      (reqs.map fun r =>
        [Turn.mk "user" r.1, Turn.mk "assistant" (process_message r.2)]).flatten ∧
    (submitAll reqs { messages := [], model := m }).messages.length = 2 * reqs.length ∧
    rolesOk true (submitAll reqs { messages := [], model := m }).messages = true := by
  have hmsg := submitAll_messages reqs { messages := [], model := m } h
  simp only [List.nil_append] at hmsg
  exact ⟨hmsg, by rw [hmsg, flatten_pairs_length], by rw [hmsg, rolesOk_flatten_pairs]⟩

/-- Witness for C3 with two concrete submissions from the empty
transcript. -/
theorem transcript_length_alternation_witness :
    (submitAll [("hi", []), ("yo", [])] { messages := [], model := "sonnet" }).messages =
      ([("hi", ([] : List MessageEvent)), ("yo", [])].map fun r =>
        [Turn.mk "user" r.1, Turn.mk "assistant" (process_message r.2)]).flatten ∧
    (submitAll [("hi", []), ("yo", [])] { messages := [], model := "sonnet" }).messages.length =
      2 * [("hi", ([] : List MessageEvent)), ("yo", [])].length ∧
    rolesOk true
      (submitAll [("hi", []), ("yo", [])] { messages := [], model := "sonnet" }).messages = true :=
  transcript_length_alternation [("hi", []), ("yo", [])] "sonnet" (by decide)

/-- C4: an empty user text fails the input guard: the submission is
rejected as invalid input and the session state (hence the Transcript) is
left unchanged, whatever the external call would have returned. -/
theorem submit_empty_rejected (out : Except String (List MessageEvent))
    (st : SessionState) :
    submit "" out st = .error .invalidInput ∧ runSubmit "" out st = st := by
  constructor <;> simp [submit, runSubmit]

/-- C5: after selecting the balanced-tier identifier (`"sonnet"`), the
configuration built fresh for a request carries it as its `model` field;
`runSubmit` never changes the selected model, and every field of
`get_claude_options` other than `model` is the same for all model
identifiers. -/
theorem select_model_balanced_fresh_config :
    (∀ st : SessionState,
      select_model balanced_tier st = .ok { st with model := balanced_tier }) ∧
    (∀ st : SessionState,
      (configForRequest { st with model := balanced_tier }).model = balanced_tier) ∧
    (∀ (u : String) (out : Except String (List MessageEvent)) (st : SessionState),
      (runSubmit u out st).model = st.model) ∧
    (∀ m : String, (get_claude_options m).model = m) ∧
    (∀ m₁ m₂ : String,
      (get_claude_options m₁).permission_mode = (get_claude_options m₂).permission_mode ∧
      (get_claude_options m₁).setting_sources = (get_claude_options m₂).setting_sources ∧
      (get_claude_options m₁).allowed_tools = (get_claude_options m₂).allowed_tools ∧
      (get_claude_options m₁).agents = (get_claude_options m₂).agents ∧
      (get_claude_options m₁).mcp_servers = (get_claude_options m₂).mcp_servers) := by
  refine ⟨?_, fun st => rfl, runSubmit_model, fun m => rfl,
    fun m₁ m₂ => ⟨rfl, rfl, rfl, rfl, rfl⟩⟩
  intro st
  have hmem : balanced_tier ∈ supportedModels := by decide
  simp [select_model, hmem]

/-- C6: the selectable model names are exactly the three supported
identifiers; a name outside that set is rejected as an invalid model and
the selection (indeed the whole session state) is unchanged, while a
supported name is accepted and stored. -/
theorem select_model_invalid_rejected :
    supportedModels = ["sonnet", "opus", "haiku"] ∧
    (∀ (name : String) (st : SessionState), name ∉ supportedModels →
      select_model name st = .error .invalidModel ∧ runSelectModel name st = st) ∧
    (∀ (name : String) (st : SessionState), name ∈ supportedModels →
      select_model name st = .ok { st with model := name }) := by
  refine ⟨rfl, ?_, ?_⟩
  · intro name st hname
    constructor <;> simp [select_model, runSelectModel, hname]
  · intro name st hname
    simp [select_model, hname]

/-- Witness for C6 at the unsupported name `"gpt-4o"` from the initial
state. -/
theorem select_model_invalid_rejected_witness :
    select_model "gpt-4o" initialState = .error .invalidModel ∧
    runSelectModel "gpt-4o" initialState = initialState :=
  select_model_invalid_rejected.2.1 "gpt-4o" initialState (by decide)

/-- C7: clearing the chat history empties the Transcript unconditionally,
for every prior session state, and touches nothing else. -/
theorem clear_empties_transcript (st : SessionState) :
    (clear st).messages = [] ∧ clear st = { messages := [], model := st.model } :=
  ⟨rfl, rfl⟩

/-- C8: a model-selection event never changes the recorded Transcript,
whether the name is accepted or rejected. -/
theorem select_model_preserves_transcript (name : String) (st : SessionState) :
    (runSelectModel name st).messages = st.messages := by
  by_cases h : name ∈ supportedModels <;> simp [runSelectModel, select_model, h]

/-- C9: for every model identifier, the subagent map of the built
configuration has exactly the keys youtube-analyst, researcher and
events_agent, in that order; documentation-writer is advertised in the
sidebar text but has no definition in the map. -/
theorem agents_exactly_three (m : String) :
    (get_claude_options m).agents.map Prod.fst =
      ["youtube-analyst", "researcher", "events_agent"] ∧
    "documentation-writer" ∈ sidebar_subagents ∧
    "documentation-writer" ∉ (get_claude_options m).agents.map Prod.fst := by
  refine ⟨rfl, by decide, ?_⟩
  have hkeys : (get_claude_options m).agents.map Prod.fst =
      ["youtube-analyst", "researcher", "events_agent"] := rfl
  rw [hkeys]
  decide

/-- C10: for every model identifier, every subagent definition of the
built configuration only lists tools that also appear in the top-level
allowed tool names of that same configuration. -/
theorem subagent_tools_subset_allowed (m : String) :
    ((get_claude_options m).agents.all fun p =>
      p.2.tools.all fun t => (get_claude_options m).allowed_tools.contains t) = true := by
  have h1 : (get_claude_options m).agents = (get_claude_options "sonnet").agents := rfl
  have h2 : (get_claude_options m).allowed_tools =
      (get_claude_options "sonnet").allowed_tools := rfl
  rw [h1, h2]
  decide

end Subagents
